import Mathlib

/-!
Verification of the llm-grader repository's result-parsing and orchestration
logic (grader.py, src/engine/grading_engine.py, src/engine/grading_client.py).

The Python code is shallowly embedded: JSON values become the inductive
`JValue` (numbers as exact rationals), `json.loads` becomes the fuel-based
total parser `jsonLoads`, Python string methods (`find`, `rfind`, slicing,
`strip`, `startswith`, `in`) become executable functions on `List Char`,
and Python exceptions become the `Except PyExc` monad.  HTTP traffic is
abstracted: the engine's `grade_code` takes the client's `GradingResponse`
as an input, and the client's post-HTTP processing takes the decoded HTTP
response as an input.
-/

/-- A JSON value as produced by `json.loads`.  Numbers are modelled as exact
rationals (Python would distinguish `int` and `float` and round floats; the
claims under study only involve values where the arithmetic is exact).
Objects are insertion-ordered key/value lists, as Python dicts are. -/
inductive JValue where
  | null
  | bool (b : Bool)
  | num (q : ℚ)
  | str (s : String)
  | arr (xs : List JValue)
  | obj (kvs : List (String × JValue))

/-- Whitespace skipped by the JSON grammar and stripped by `str.strip` in this
model: space, tab, newline, carriage return (the JSON whitespace set; Python's
`str.strip` would also strip `\x0b`/`\x0c`, which no JSON text under study
contains). -/
def wsChar (c : Char) : Bool := c == '\t' || c == '\n' || c == '\r' || c == ' '

/-- `\d` of the score regexes and the digits of the JSON number grammar. -/
def digChar (c : Char) : Bool := '0' ≤ c && c ≤ '9'

/-- Numeric value of a digit run. -/
def natOfDigits (ds : List Char) : Nat :=
  ds.foldl (fun a c => 10 * a + (c.toNat - '0'.toNat)) 0

/-- `lit.isPrefixOf cs`, returning the remainder on success. -/
def litMatch : List Char → List Char → Option (List Char)
  | [], cs => some cs
  | _ :: _, [] => none
  | p :: ps, c :: cs => if p = c then litMatch ps cs else none

/-- Boolean form of `litMatch`: does `cs` start with `lit`? (`str.startswith`). -/
def leadsWith (lit cs : List Char) : Bool := (litMatch lit cs).isSome

/-- Index of the first occurrence of `needle` at or after the head of `hay`
(the search behind Python's `str.find`). -/
def findIdx (needle : List Char) : List Char → Option Nat
  | [] => if leadsWith needle [] then some 0 else none
  | c :: cs =>
    if leadsWith needle (c :: cs) then some 0
    else (findIdx needle cs).map (· + 1)

/-- Python `needle in hay` on strings. -/
def hasSub (needle hay : List Char) : Bool := (findIdx needle hay).isSome

/-- Python `hay.find(needle)`: first index, `-1` when absent. -/
def pyFind (needle hay : List Char) : Int :=
  match findIdx needle hay with
  | some i => i
  | none => -1

/-- Python `hay.find(needle, start)` with Python's index clamping. -/
def pyFindFrom (needle hay : List Char) (start : Int) : Int :=
  let n : Int := hay.length
  let st : Int := if start < 0 then max (n + start) 0 else min start n
  match findIdx needle (hay.drop st.toNat) with
  | some i => st + i
  | none => -1

/-- Python `hay.rfind(needle)`: start index of the last occurrence, `-1` when
absent (located via the first occurrence of the reversed needle in the
reversed string). -/
def pyRFind (needle hay : List Char) : Int :=
  match findIdx needle.reverse hay.reverse with
  | some i => (hay.length : Int) - i - needle.length
  | none => -1

/-- Python slicing `hay[a:b]` with negative-index resolution and clamping. -/
def pySlice (hay : List Char) (a b : Int) : List Char :=
  let n : Int := hay.length
  let a' : Int := if a < 0 then max (n + a) 0 else min a n
  let b' : Int := if b < 0 then max (n + b) 0 else min b n
  (hay.drop a'.toNat).take (b' - a').toNat

/-- Leading-whitespace removal (half of `str.strip`). -/
def dropWs (cs : List Char) : List Char := cs.dropWhile wsChar

/-- Python `str.strip()` on character lists: trailing run first, then leading. -/
def stripAll (cs : List Char) : List Char := dropWs ((dropWs cs.reverse).reverse)

/-- Python `str.strip()` on strings. -/
def pyStrip (s : String) : String := ⟨stripAll s.data⟩

/-! ### The JSON parser (`json.loads`)

Fuel-based and total.  It follows Python's `json` grammar: objects, arrays,
strings with the standard escapes (raw control characters rejected, as in
strict mode), `true`/`false`/`null`, and numbers `-?(0|[1-9]\d*)(\.\d+)?([eE][+-]?\d+)?`
whose fractional/exponent parts are only consumed when complete, exactly as
Python's number regex does.  Duplicate object keys keep the first position and
the last value, as `dict` assignment does. -/

/-- Value of a hexadecimal digit, for `\uXXXX` escapes (code-point ranges:
digits 48-57, lowercase 97-102, uppercase 65-70). -/
def hexVal (c : Char) : Option Nat :=
  let n := c.toNat
  if 48 ≤ n ∧ n ≤ 57 then some (n - 48)
  else if 97 ≤ n ∧ n ≤ 102 then some (n - 87)
  else if 65 ≤ n ∧ n ≤ 70 then some (n - 55)
  else none

/-- Body of a JSON string literal, after the opening quote: returns the decoded
string and the remainder after the closing quote. -/
def strBody : Nat → List Char → Option (String × List Char)
  | 0, _ => none
  | _ + 1, [] => none
  | fuel + 1, c :: cs =>
    if c = '"' then some ("", cs)
    else if c = '\\' then
      match cs with
      | [] => none
      | e :: cs2 =>
        let dec : Option (Char × List Char) :=
          if e = '"' then some ('"', cs2)
          else if e = '\\' then some ('\\', cs2)
          else if e = '/' then some ('/', cs2)
          else if e = 'b' then some ('\x08', cs2)
          else if e = 'f' then some ('\x0c', cs2)
          else if e = 'n' then some ('\n', cs2)
          else if e = 'r' then some ('\r', cs2)
          else if e = 't' then some ('\t', cs2)
          else if e = 'u' then
            match cs2 with
            | h1 :: h2 :: h3 :: h4 :: cs3 =>
              match hexVal h1, hexVal h2, hexVal h3, hexVal h4 with
              | some a, some b, some c2, some d =>
                some (Char.ofNat (((a * 16 + b) * 16 + c2) * 16 + d), cs3)
              | _, _, _, _ => none
            | _ => none
          else none
        match dec with
        | some (ch, rest) =>
          match strBody fuel rest with
          | some (s, r2) => some (⟨ch :: s.data⟩, r2)
          | none => none
        | none => none
    else if c.toNat < 32 then none
    else
      match strBody fuel cs with
      | some (s, r2) => some (⟨c :: s.data⟩, r2)
      | none => none

/-- Sign application for a parsed JSON number. -/
def applySign (neg : Bool) (q : ℚ) : ℚ := if neg then -q else q

/-- The exponent part `[eE][-+]?\d+` of a JSON number: the scale factor and
the remainder when present and complete, `none` otherwise (an incomplete
exponent is left unconsumed, as by Python's number regex). -/
def expScale (r2 : List Char) : Option (ℚ × List Char) :=
  match r2 with
  | e :: r2' =>
    if e = 'e' || e = 'E' then
      let (negE, r2'') : Bool × List Char :=
        match r2' with
        | '+' :: t => (false, t)
        | '-' :: t => (true, t)
        | _ => (false, r2')
      let ed := r2''.takeWhile digChar
      if ed.isEmpty then none
      else
        let p : ℚ := (10 : ℚ) ^ natOfDigits ed
        some (if negE then p⁻¹ else p, r2''.dropWhile digChar)
    else none
  | [] => none

/-- A JSON number.  The integer part is `0` or a run not starting with `0`;
`.` and `e`/`E` parts are consumed only when syntactically complete.  (The
plain-integer path returns the cast digit value with no rational arithmetic;
the decimal/exponent paths carry the exact value.) -/
def numTok (cs : List Char) : Option (ℚ × List Char) :=
  let (neg, cs1) : Bool × List Char :=
    match cs with
    | '-' :: r => (true, r)
    | _ => (false, cs)
  match cs1 with
  | [] => none
  | d :: rest =>
    if digChar d then
      let (ip, r1) : List Char × List Char :=
        if d = '0' then (['0'], rest)
        else (cs1.takeWhile digChar, cs1.dropWhile digChar)
      let (decQ, r2) : ℚ × List Char :=
        match r1 with
        | '.' :: r1' =>
          let fd := r1'.takeWhile digChar
          if fd.isEmpty then ((natOfDigits ip : ℚ), r1)
          else ((natOfDigits ip : ℚ) + (natOfDigits fd : ℚ) / (10 ^ fd.length),
                r1'.dropWhile digChar)
        | _ => ((natOfDigits ip : ℚ), r1)
      match expScale r2 with
      | some (sc, r3) => some (applySign neg (decQ * sc), r3)
      | none => some (applySign neg decQ, r2)
    else none

/-- `dict` assignment `d[k] = v`: replace in place, else append. -/
def insertPair : List (String × JValue) → String → JValue → List (String × JValue)
  | [], k, v => [(k, v)]
  | (k', v') :: rest, k, v =>
    if k' = k then (k', v) :: rest else (k', v') :: insertPair rest k v

mutual

/-- One JSON value at the head of the input (no leading whitespace expected),
returning the remainder. -/
def jsonVal : Nat → List Char → Option (JValue × List Char)
  | 0, _ => none
  | _ + 1, [] => none
  | fuel + 1, c :: cs =>
    if c = '{' then
      match dropWs cs with
      | '}' :: r => some (.obj [], r)
      | cs' =>
        match jsonMembers fuel cs' [] with
        | some (kvs, r) => some (.obj kvs, r)
        | none => none
    else if c = '[' then
      match dropWs cs with
      | ']' :: r => some (.arr [], r)
      | cs' =>
        match jsonElems fuel cs' with
        | some (xs, r) => some (.arr xs, r)
        | none => none
    else if c = '"' then
      match strBody (cs.length + 1) cs with
      | some (s, r) => some (.str s, r)
      | none => none
    else if c = 't' then
      match litMatch ['r', 'u', 'e'] cs with
      | some r => some (.bool true, r)
      | none => none
    else if c = 'f' then
      match litMatch ['a', 'l', 's', 'e'] cs with
      | some r => some (.bool false, r)
      | none => none
    else if c = 'n' then
      match litMatch ['u', 'l', 'l'] cs with
      | some r => some (.null, r)
      | none => none
    else if c = '-' || digChar c then
      match numTok (c :: cs) with
      | some (q, r) => some (.num q, r)
      | none => none
    else none

/-- Object members `"k": v (, "k": v)* }`, accumulating with `insertPair`. -/
def jsonMembers : Nat → List Char → List (String × JValue) →
    Option (List (String × JValue) × List Char)
  | 0, _, _ => none
  | fuel + 1, cs, acc =>
    match cs with
    | '"' :: cs1 =>
      match strBody (cs1.length + 1) cs1 with
      | some (k, r1) =>
        match dropWs r1 with
        | ':' :: r2 =>
          match jsonVal fuel (dropWs r2) with
          | some (v, r3) =>
            match dropWs r3 with
            | ',' :: r4 => jsonMembers fuel (dropWs r4) (insertPair acc k v)
            | '}' :: r4 => some (insertPair acc k v, r4)
            | _ => none
          | none => none
        | _ => none
      | none => none
    | _ => none

/-- Array elements `v (, v)* ]`. -/
def jsonElems : Nat → List Char → Option (List JValue × List Char)
  | 0, _ => none
  | fuel + 1, cs =>
    match jsonVal fuel cs with
    | some (v, r1) =>
      match dropWs r1 with
      | ',' :: r2 =>
        match jsonElems fuel (dropWs r2) with
        | some (xs, r) => some (v :: xs, r)
        | none => none
      | ']' :: r2 => some ([v], r2)
      | _ => none
    | none => none

end

/-- `json.loads`: strip the surrounding whitespace, parse exactly one value,
reject trailing garbage.  The error strings stand in for Python's
`JSONDecodeError` messages (their content is never inspected by the code under
study, only interpolated into diagnostics). -/
def jsonLoads (s : String) : Except String JValue :=
  let cs := stripAll s.data
  match jsonVal (2 * cs.length + 2) cs with
  | some (v, r) => if dropWs r = [] then .ok v else .error "Extra data"
  | none => .error "Expecting value"

/-! ### `MultiModelClient.parse_json_response` (grading_client.py, lines 206-232) -/

/-- The code-fence stripping performed by `parse_json_response` before
`json.loads`: a fenced `json` block first (`find` forward for the closing
fence), otherwise any fenced block (`find`/`rfind`), otherwise the raw text;
each branch `strip`s, then a leading `json` language-tag line is removed. -/
def extractJson (response_text : String) : String :=
  let json_str0 : String :=
    if hasSub "```json".data response_text.data then
      let start : Int := pyFind "```json".data response_text.data + 7
      let stop : Int := pyFindFrom "```".data response_text.data start
      pyStrip ⟨pySlice response_text.data start stop⟩
    else if hasSub "```".data response_text.data then
      let start : Int := pyFind "```".data response_text.data + 3
      let stop : Int := pyRFind "```".data response_text.data
      pyStrip ⟨pySlice response_text.data start stop⟩
    else pyStrip response_text
  if leadsWith "json\n".data json_str0.data then ⟨json_str0.data.drop 5⟩
  else json_str0

/-- `MultiModelClient.parse_json_response`: extract, parse; on a
`JSONDecodeError` return the sentinel dictionary carrying an `error` message
and the original raw text instead of raising. -/
def parse_json_response (response_text : String) : JValue :=
  match jsonLoads (extractJson response_text) with
  | .ok v => v
  | .error e =>
    .obj [("error", .str ("Invalid JSON response: " ++ e)),
          ("raw_response", .str response_text)]

/-! ### Python dynamic-typing helpers for the engine -/

/-- A Python exception escaping the code under study. -/
inductive PyExc where
  | typeError
  | attributeError
  | keyError (k : String)
  | valueError (msg : String)
  | connectionError (msg : String)
deriving DecidableEq

/-- Python truthiness of a JSON value. -/
def pyTruthy : JValue → Bool
  | .null => false
  | .bool b => b
  | .num q => decide (q ≠ 0)
  | .str s => decide (s ≠ "")
  | .arr xs => !xs.isEmpty
  | .obj kvs => !kvs.isEmpty

/-- Python `str(v)` as used in f-string diagnostics.  The only case the code
under study hits with structured data is a string value; container and
numeric `repr`s are abbreviated (their exact text is never compared). -/
def pyStr : JValue → String
  | .str s => s
  | .null => "None"
  | .bool true => "True"
  | .bool false => "False"
  | .num q => toString q
  | .arr _ => "[...]"
  | .obj _ => "\x7b...\x7d"

/-- Python `key in v`: dictionary-key membership, list membership, substring
test; a `TypeError` on non-iterable values. -/
def pyIn (key : String) (v : JValue) : Except PyExc Bool :=
  match v with
  | .obj kvs => .ok (kvs.find? (fun kv => kv.1 == key) |>.isSome)
  | .arr xs =>
    .ok (xs.any (fun x =>
      match x with
      | .str s => s == key
      | _ => false))
  | .str s => .ok (hasSub key.data s.data)
  | _ => .error .typeError

/-- Python `v[key]` for a string key: dictionary lookup (`KeyError` when
absent), `TypeError` on anything else. -/
def pyGetItem (v : JValue) (key : String) : Except PyExc JValue :=
  match v with
  | .obj kvs =>
    match kvs.find? (fun kv => kv.1 == key) with
    | some kv => .ok kv.2
    | none => .error (.keyError key)
  | _ => .error .typeError

/-- Python `v.get(key, default)`: only dictionaries have `.get`
(`AttributeError` otherwise). -/
def dictGet (v : JValue) (key : String) (dflt : JValue) : Except PyExc JValue :=
  match v with
  | .obj kvs => .ok (((kvs.find? (fun kv => kv.1 == key)).map (fun kv => kv.2)).getD dflt)
  | _ => .error .attributeError

/-! ### The grading engine (grading_engine.py) -/

/-- `GradingResponse` (grading_client.py, lines 13-23): what the client hands
the engine.  `processing_time` is an abstract elapsed duration. -/
structure GradingResponse where
  success : Bool
  grade : Option ℚ := none
  percentage : Option ℚ := none
  feedback : Option JValue := none
  raw_response : String := ""
  processing_time : ℚ := 0
  error_message : Option String := none

/-- `GradingResult` (grading_engine.py, lines 14-29).  The dataclass annotates
`grade`/`percentage` as floats and `issues` etc. as lists, but Python never
checks: the engine stores whatever the parsed JSON held, so the fields carry
`JValue`s here.  All optional fields default to `None` exactly as in the
dataclass. -/
structure GradingResult where
  student_id : String
  problem : String
  code : String
  success : Bool
  grade : Option JValue := none
  percentage : Option JValue := none
  feedback : Option JValue := none
  issues : Option JValue := none
  recommendations : Option JValue := none
  strengths : Option JValue := none
  processing_time : ℚ := 0
  error_message : Option String := none

/-- The eagerly evaluated default argument
`(grade / 100.0 * 100) if grade else 0` of the `percentage` lookup in
`_parse_json_result` (line 107).  Python's `bool` is numeric (`True` is `1`),
other truthy non-numbers make the division raise `TypeError`. -/
def jsonDefaultPct (grade : JValue) : Except PyExc JValue :=
  if pyTruthy grade then
    match grade with
    | .num q => .ok (.num (q / 100 * 100))
    | .bool b => .ok (.num ((if b then (1 : ℚ) else 0) / 100 * 100))
    | _ => .error .typeError
  else .ok (.num 0)

/-- `GradingEngine._parse_json_result` (lines 88-124). -/
def parse_json_result (sid prob code : String) (resp : GradingResponse) :
    Except PyExc GradingResult :=
  let parsed := parse_json_response resp.raw_response
  match pyIn "error" parsed with
  | .error e => .error e
  | .ok true =>
    match pyGetItem parsed "error" with
    | .error e => .error e
    | .ok ev =>
      .ok { student_id := sid, problem := prob, code := code, success := false,
            processing_time := resp.processing_time,
            error_message := some ("JSON parsing error: " ++ pyStr ev) }
  | .ok false =>
    match dictGet parsed "total_score" (.num 0) with
    | .error e => .error e
    | .ok grade =>
      match jsonDefaultPct grade with
      | .error e => .error e
      | .ok dflt =>
        match dictGet parsed "percentage" dflt with
        | .error e => .error e
        | .ok percentage =>
          match dictGet parsed "issues" (.arr []) with
          | .error e => .error e
          | .ok issues =>
            match dictGet parsed "recommendations" (.arr []) with
            | .error e => .error e
            | .ok recommendations =>
              match dictGet parsed "strengths" (.arr []) with
              | .error e => .error e
              | .ok strengths =>
                .ok { student_id := sid, problem := prob, code := code,
                      success := true,
                      grade := some grade, percentage := some percentage,
                      feedback := some parsed, issues := some issues,
                      recommendations := some recommendations,
                      strengths := some strengths,
                      processing_time := resp.processing_time }

/-- `GradingEngine._parse_simple_result` (lines 126-159).  The grade heuristic
`100.0 if is_correct else (50.0 if not hints else 25.0)` uses Python
truthiness of both values. -/
def parse_simple_result (sid prob code : String) (resp : GradingResponse) :
    Except PyExc GradingResult :=
  let parsed := parse_json_response resp.raw_response
  match pyIn "error" parsed with
  | .error e => .error e
  | .ok true =>
    match pyGetItem parsed "error" with
    | .error e => .error e
    | .ok ev =>
      .ok { student_id := sid, problem := prob, code := code, success := false,
            processing_time := resp.processing_time,
            error_message := some ("JSON parsing error: " ++ pyStr ev) }
  | .ok false =>
    match dictGet parsed "is_correct" (.bool false) with
    | .error e => .error e
    | .ok is_correct =>
      match dictGet parsed "hints" (.arr []) with
      | .error e => .error e
      | .ok hints =>
        let grade : ℚ :=
          if pyTruthy is_correct then 100
          else if pyTruthy hints = false then 50 else 25
        .ok { student_id := sid, problem := prob, code := code, success := true,
              grade := some (.num grade), percentage := some (.num grade),
              feedback := some parsed, issues := some hints,
              processing_time := resp.processing_time }

/-! ### `GradingEngine._parse_text_result` (lines 161-203)

The regex patterns `TOTAL:\s*(\d+)/100` (and the `Total:`/`Score:`/`Grade:`
variants) and `(\d+\.?\d*)%` are compiled by hand.  Greedy matching with
these patterns needs no backtracking: a shortened `\d+`/`\d*` run is always
followed by another digit, which can match neither `/100`, `.` nor `%`, so
maximal munch at each position is exact.  `re.search` takes the leftmost
matching position. -/

/-- `\s` of Python's `re` module (ASCII range): the JSON whitespace set plus
vertical tab and form feed. -/
def reWs (c : Char) : Bool := wsChar c || c == '\x0b' || c == '\x0c'

/-- Match `lit` then `\s*(\d+)/100` at the head of `cs`; the captured number. -/
def scoreAt (lit : List Char) (cs : List Char) : Option Nat :=
  match litMatch lit cs with
  | none => none
  | some r1 =>
    let r2 := r1.dropWhile reWs
    let ds := r2.takeWhile digChar
    if ds.isEmpty then none
    else
      match litMatch ['/', '1', '0', '0'] (r2.dropWhile digChar) with
      | some _ => some (natOfDigits ds)
      | none => none

/-- Match `(\d+\.?\d*)%` at the head of `cs`; `float` of the capture
(`float("12.")` is `12.0`). -/
def percentAt (cs : List Char) : Option ℚ :=
  let ds := cs.takeWhile digChar
  if ds.isEmpty then none
  else
    match cs.dropWhile digChar with
    | '%' :: _ => some (natOfDigits ds : ℚ)
    | '.' :: r2 =>
      match r2.dropWhile digChar with
      | '%' :: _ =>
        some ((natOfDigits ds : ℚ) +
          (natOfDigits (r2.takeWhile digChar) : ℚ) / (10 ^ (r2.takeWhile digChar).length))
      | _ => none
    | _ => none

/-- `re.search`: the match at the leftmost position where `f` succeeds. -/
def searchFrom {α : Type} (f : List Char → Option α) : List Char → Option α
  | [] => f []
  | c :: cs =>
    match f (c :: cs) with
    | some x => some x
    | none => searchFrom f cs

/-- The ordered `score_patterns` list of `_parse_text_result` (lines 173-178),
each reduced to its literal head. -/
def score_patterns : List (List Char) :=
  ["TOTAL:".data, "Total:".data, "Score:".data, "Grade:".data]

/-- The pattern loop of `_parse_text_result` (lines 180-184): the first
pattern in list order with a match anywhere wins. -/
def firstScore : List (List Char) → List Char → Option Nat
  | [], _ => none
  | p :: ps, text =>
    match searchFrom (scoreAt p) text with
    | some n => some n
    | none => firstScore ps text

/-- `GradingEngine._parse_text_result` (lines 161-203). -/
def parse_text_result (sid prob code : String) (resp : GradingResponse) :
    Except PyExc GradingResult :=
  let text := resp.raw_response
  let grade : Option ℚ :=
    match firstScore score_patterns text.data with
    | some n => some (n : ℚ)
    | none => searchFrom percentAt text.data
  .ok { student_id := sid, problem := prob, code := code, success := true,
        grade := grade.map (fun q => JValue.num q),
        percentage := some (.num (grade.getD 0)),
        feedback := some (.obj [("raw_text", .str text)]),
        processing_time := resp.processing_time }

/-- `GradingEngine.grade_code` (lines 41-86).  Prompt construction (pure
string templating with no effect on the result) and the client call are
abstracted: the client's response is the `response` argument.  Unrecognized
`evaluation_type`s fall through to the text parser, as in the source. -/
def grade_code (student_id problem code : String) (evaluation_type : String)
    (_model_solution : Option String) (response : GradingResponse) :
    Except PyExc GradingResult :=
  if response.success = false then
    .ok { student_id := student_id, problem := problem, code := code,
          success := false,
          processing_time := response.processing_time,
          error_message := response.error_message }
  else if evaluation_type = "json" then
    parse_json_result student_id problem code response
  else if evaluation_type = "simple" then
    parse_simple_result student_id problem code response
  else
    parse_text_result student_id problem code response

/-- A batch submission: the plain Python dictionary of `grade_batch`
(string-valued), looked up with `[]` and `.get`. -/
def Submission : Type := List (String × String)

/-- Python `submission.get(key)` on a submission dictionary. -/
def subGet (sub : Submission) (key : String) : Option String :=
  (sub.find? (fun kv => kv.1 == key)).map (fun kv => kv.2)

/-- `GradingEngine.grade_batch` (lines 210-226): sequential, one response per
submission (the client call again abstracted as a paired input);
`submission["problem"]`/`["code"]` raise `KeyError` when absent. -/
def grade_batch (items : List (Submission × GradingResponse))
    (evaluation_type : String) : Except PyExc (List GradingResult) :=
  match items with
  | [] => .ok []
  | (sub, resp) :: rest =>
    let sid := (subGet sub "student_id").getD "unknown"
    match subGet sub "problem" with
    | none => .error (.keyError "problem")
    | some prob =>
      match subGet sub "code" with
      | none => .error (.keyError "code")
      | some code =>
        match grade_code sid prob code evaluation_type (subGet sub "model_solution") resp with
        | .error e => .error e
        | .ok r =>
          match grade_batch rest evaluation_type with
          | .error e => .error e
          | .ok rs => .ok (r :: rs)

/-! ### The client (grading_client.py) -/

/-- The provider configuration held by `MultiModelClient` after `__init__`. -/
structure ClientConfig where
  api_key : String
  model : String
  provider : String
  base_url : String := ""
  headers : List (String × String) := []
  model_mapping : List (String × String) := []

/-- Python `str.lower()` over the ASCII range (the provider names in use). -/
def pyLower (s : String) : String :=
  ⟨s.data.map (fun c =>
    if 'A' ≤ c && c ≤ 'Z' then Char.ofNat (c.toNat + 32) else c)⟩

/-- `MultiModelClient.__init__` (lines 29-65): lowercase the provider,
configure endpoint and headers, and raise `ValueError` for anything outside
the fixed set. -/
def multiModelClient_init (api_key model provider : String) :
    Except PyExc ClientConfig :=
  let p := pyLower provider
  if p = "openai" then
    .ok { api_key := api_key, model := model, provider := p,
          base_url := "https://api.openai.com/v1/chat/completions",
          headers := [("Authorization", "Bearer " ++ api_key),
                      ("Content-Type", "application/json")] }
  else if p = "anthropic" then
    .ok { api_key := api_key, model := model, provider := p,
          base_url := "https://api.anthropic.com/v1/messages",
          headers := [("x-api-key", api_key),
                      ("Content-Type", "application/json"),
                      ("anthropic-version", "2023-06-01")] }
  else if p = "gemini" then
    .ok { api_key := api_key, model := model, provider := p,
          base_url := "https://generativelanguage.googleapis.com/v1beta/models",
          model_mapping := [("gemini-1.5-flash", "gemini-1.5-flash-latest"),
                            ("gemini-1.5-pro", "gemini-1.5-pro-latest"),
                            ("gemini-pro", "gemini-pro")] }
  else if p = "groq" then
    .ok { api_key := api_key, model := model, provider := p,
          base_url := "https://api.groq.com/openai/v1/chat/completions",
          headers := [("Authorization", "Bearer " ++ api_key),
                      ("Content-Type", "application/json")] }
  else .error (.valueError ("Unsupported provider: " ++ provider))

/-- A decoded HTTP response: status, `response.json()`, `response.text`. -/
structure HttpResponse where
  status_code : Nat
  body : JValue := .null
  text : String := ""

/-- What one `requests.post` did: returned, or raised a transport exception. -/
inductive HttpOutcome where
  | response (r : HttpResponse) (elapsed : ℚ)
  | exception (msg : String) (elapsed : ℚ)

/-- Dictionary lookup into a decoded body. -/
def jKey (v : JValue) (k : String) : Option JValue :=
  match v with
  | .obj kvs => (kvs.find? (fun kv => kv.1 == k)).map (fun kv => kv.2)
  | _ => none

/-- List indexing into a decoded body. -/
def jIdx (v : JValue) (i : Nat) : Option JValue :=
  match v with
  | .arr xs => xs.get? i
  | _ => none

/-- The per-provider completion-extraction path (`choices[0].message.content`
for OpenAI/Groq, `content[0].text` for Anthropic,
`candidates[0].content.parts[0].text` for Gemini); `none` stands for the
`KeyError`/`IndexError`/`TypeError` a wrongly shaped body raises. -/
def contentPath (provider : String) (body : JValue) : Option String :=
  let leaf : Option JValue :=
    if provider = "openai" || provider = "groq" then
      ((jKey body "choices").bind (jIdx · 0)).bind (jKey · "message") |>.bind (jKey · "content")
    else if provider = "anthropic" then
      ((jKey body "content").bind (jIdx · 0)).bind (jKey · "text")
    else if provider = "gemini" then
      (((((jKey body "candidates").bind (jIdx · 0)).bind
          (jKey · "content")).bind (jKey · "parts")).bind (jIdx · 0)).bind (jKey · "text")
    else none
  match leaf with
  | some (.str s) => some s
  | _ => none

/-- The display name in each provider's non-2xx error message. -/
def apiLabel (provider : String) : String :=
  if provider = "openai" then "OpenAI"
  else if provider = "anthropic" then "Anthropic"
  else if provider = "gemini" then "Gemini"
  else if provider = "groq" then "Groq"
  else provider

/-- The shared shape of `_call_openai`/`_call_anthropic`/`_call_groq`/
`_call_gemini` (lines 94-204) once the HTTP response is in hand: 200 with a
well-shaped body succeeds with the extracted text; 200 with a bad shape
raises inside the `try` of `evaluate_code` and is converted there
(`Error calling ... API: ...`); any other status fails with the provider's
error message. -/
def call_provider (cfg : ClientConfig) (r : HttpResponse) (elapsed : ℚ) :
    GradingResponse :=
  if r.status_code = 200 then
    match contentPath cfg.provider r.body with
    | some content =>
      { success := true, raw_response := content, processing_time := elapsed }
    | none =>
      { success := false,
        error_message := some ("Error calling " ++ cfg.provider ++ " API: response shape error"),
        processing_time := elapsed }
  else
    { success := false,
      error_message := some (apiLabel cfg.provider ++ " API error: "
        ++ toString r.status_code ++ " - " ++ r.text),
      processing_time := elapsed }

/-- `MultiModelClient.evaluate_code` (lines 67-92): dispatch by provider,
converting transport exceptions into failed responses. -/
def evaluate_code (cfg : ClientConfig) (outcome : HttpOutcome) : GradingResponse :=
  match outcome with
  | .exception msg t =>
    { success := false,
      error_message := some ("Error calling " ++ cfg.provider ++ " API: " ++ msg),
      processing_time := t }
  | .response r t =>
    if cfg.provider = "openai" || cfg.provider = "anthropic"
        || cfg.provider = "gemini" || cfg.provider = "groq" then
      call_provider cfg r t
    else
      { success := false,
        error_message := some ("Unsupported provider: " ++ cfg.provider),
        processing_time := t }

/-- `MultiModelClient.test_connection` (lines 234-245); `x or y` on the error
message treats `None` and the empty string as falsy. -/
def test_connection (cfg : ClientConfig) (outcome : HttpOutcome) : GradingResponse :=
  let resp := evaluate_code cfg outcome
  if resp.success && hasSub "Connection successful".data resp.raw_response.data then
    { success := true, raw_response := "Connection test passed" }
  else
    { success := false,
      error_message := some (match resp.error_message with
        | some m => if m = "" then "Connection test failed" else m
        | none => "Connection test failed") }

/-! ### The facade (grader.py) -/

/-- `CodeGrader.__init__` + `_test_connection` (lines 18-45): client
construction (which may raise `ValueError`) followed by the connectivity
check (which raises `ConnectionError` on failure).  The test call's HTTP
outcome is the oracle argument. -/
def codeGrader_init (api_key model provider : String) (testOutcome : HttpOutcome) :
    Except PyExc ClientConfig :=
  match multiModelClient_init api_key model provider with
  | .error e => .error e
  | .ok cfg =>
    if (test_connection cfg testOutcome).success then .ok cfg
    else
      .error (.connectionError ("Failed to connect to " ++ provider
        ++ " API. Please check your API key and internet connection."))

/-- The flat dictionary `CodeGrader._format_result` returns (lines 96-110). -/
structure FormattedResult where
  student_id : String
  success : Bool
  grade : Option JValue
  percentage : Option JValue
  feedback : Option JValue
  issues : JValue
  recommendations : JValue
  strengths : JValue
  processing_time : ℚ
  error : Option String

/-- Python `x or []` over an optional value: `None` and falsy values give the
default. -/
def pyOrList (x : Option JValue) (dflt : JValue) : JValue :=
  match x with
  | some v => if pyTruthy v then v else dflt
  | none => dflt

/-- `CodeGrader._format_result` (lines 96-110). -/
def format_result (r : GradingResult) : FormattedResult :=
  { student_id := r.student_id, success := r.success, grade := r.grade,
    percentage := r.percentage, feedback := r.feedback,
    issues := pyOrList r.issues (.arr []),
    recommendations := pyOrList r.recommendations (.arr []),
    strengths := pyOrList r.strengths (.arr []),
    processing_time := r.processing_time, error := r.error_message }

/-! ### Specification-side definitions

These follow the wording of the specification (not the code) and are related
to the code-side definitions by the theorems below. -/

/-- The comprehensive-format grade as the specification words it: the number
captured by the first pattern, in the fixed order `TOTAL:`/`Total:`/`Score:`/
`Grade:` `N/100`, that matches anywhere; else the first `%`-suffixed number;
else absent. -/
def textGradeSpec (cs : List Char) : Option ℚ :=
  match searchFrom (scoreAt "TOTAL:".data) cs with
  | some n => some ((n : ℚ))
  | none =>
    match searchFrom (scoreAt "Total:".data) cs with
    | some n => some ((n : ℚ))
    | none =>
      match searchFrom (scoreAt "Score:".data) cs with
      | some n => some ((n : ℚ))
      | none =>
        match searchFrom (scoreAt "Grade:".data) cs with
        | some n => some ((n : ℚ))
        | none => searchFrom percentAt cs

/-- The code-fence wrapping named by the round-trip claim. -/
def fenceJson (s : String) : String := "```json\n" ++ s ++ "\n```"

/-- The `raw_response` field of an error-sentinel dictionary, as a string
(used to discriminate two parse results without deciding `JValue` equality). -/
def rawRespStr (v : JValue) : Option String :=
  match v with
  | .obj kvs =>
    let field : Option JValue :=
      (kvs.find? (fun kv => kv.1 == "raw_response")).map (fun kv => kv.2)
    match field with
    | some (.str s) => some s
    | _ => none
  | _ => none

/-- Does the parsed response have a shape on which `_parse_json_result`
completes without a Python exception?  (A non-dictionary raises in
`"error" in parsed`/`.get`; a truthy non-numeric, non-boolean `total_score`
raises in the eager `grade / 100.0 * 100` default.) -/
def jsonShapeOk (v : JValue) : Bool :=
  match v with
  | .obj kvs =>
    match kvs.find? (fun kv => kv.1 == "error") with
    | some _ => true
    | none =>
      let ts : Option JValue :=
        (kvs.find? (fun kv => kv.1 == "total_score")).map (fun kv => kv.2)
      match ts with
      | none => true
      | some (.num _) => true
      | some (.bool _) => true
      | some w => !pyTruthy w
  | _ => false

/-- Shape on which `_parse_simple_result` completes without an exception:
any dictionary. -/
def simpleShapeOk (v : JValue) : Bool :=
  match v with
  | .obj _ => true
  | _ => false

/-- Sufficient condition for `grade_code` to return rather than raise:
a failed response short-circuits; the text parser never raises; the JSON and
simple parsers need the shapes above. -/
def gradeCodeSafe (fmt : String) (resp : GradingResponse) : Bool :=
  !resp.success ||
    (if fmt = "json" then jsonShapeOk (parse_json_response resp.raw_response)
     else if fmt = "simple" then simpleShapeOk (parse_json_response resp.raw_response)
     else true)

/-- The faults facade construction is allowed to surface: success, the
unsupported-provider `ValueError`, or the connectivity `ConnectionError`. -/
def initFaultOk : Except PyExc ClientConfig → Prop
  | .ok _ => True
  | .error (.valueError _) => True
  | .error (.connectionError _) => True
  | .error _ => False

/-- Python `field is None` on a result slot.  The dataclass stores a parsed
JSON null as the very object `None`, so a field never assigned and a field
assigned a stored null are indistinguishable at the Python level: both count
as `None`. -/
def isPyNone : Option JValue → Bool
  | none => true
  | some .null => true
  | some _ => false

/-! ### Helper lemmas -/

/-- The pattern loop of `_parse_text_result` computes the specification's
first-pattern-in-fixed-order grade. -/
theorem textGrade_eq_spec (cs : List Char) :
    (match firstScore score_patterns cs with
      | some n => some ((n : ℚ))
      | none => searchFrom percentAt cs) = textGradeSpec cs := by
  simp only [score_patterns, firstScore, textGradeSpec]
  cases searchFrom (scoreAt "TOTAL:".data) cs <;>
    cases searchFrom (scoreAt "Total:".data) cs <;>
      cases searchFrom (scoreAt "Score:".data) cs <;>
        cases searchFrom (scoreAt "Grade:".data) cs <;> rfl

/-! ### The claims -/

/-- C2: for every client response with `success=false`, `grade_code` returns a
failed `GradingResult` carrying the response's error message and elapsed time,
with `grade`/`percentage`/`feedback` all `None`; the raw response text is not
parsed and no exception is raised. -/
theorem C2_short_circuit (sid prob code fmt : String) (msol : Option String)
    (resp : GradingResponse) (h : resp.success = false) :
    grade_code sid prob code fmt msol resp = .ok
      { student_id := sid, problem := prob, code := code, success := false,
        grade := none, percentage := none, feedback := none, issues := none,
        recommendations := none, strengths := none,
        processing_time := resp.processing_time,
        error_message := resp.error_message } := by
  simp [grade_code, h]

/-- Witness for C2 at a simulated non-200 OpenAI status. -/
theorem C2_short_circuit_witness :
    grade_code "s1" "p" "c" "json" none
      (evaluate_code
        { api_key := "k", model := "gpt-3.5-turbo", provider := "openai",
          base_url := "https://api.openai.com/v1/chat/completions",
          headers := [("Authorization", "Bearer k"),
                      ("Content-Type", "application/json")] }
        (.response { status_code := 500, body := .null, text := "Internal Server Error" } 2))
      = .ok
      { student_id := "s1", problem := "p", code := "c", success := false,
        processing_time := 2,
        error_message := some "OpenAI API error: 500 - Internal Server Error" } :=
  C2_short_circuit "s1" "p" "c" "json" none _ rfl

/-- C6: `parse_json_response` is total; it either returns the JSON value
parsed from the fence-stripped text or, on parse failure, the sentinel
dictionary with an `error` key and the original raw text. -/
theorem C6_extractor_total (s : String) :
    (∃ v, jsonLoads (extractJson s) = .ok v ∧ parse_json_response s = v) ∨
    (∃ m, parse_json_response s =
      .obj [("error", .str m), ("raw_response", .str s)]) := by
  cases h : jsonLoads (extractJson s) with
  | ok v => exact .inl ⟨v, rfl, by simp [parse_json_response, h]⟩
  | error e =>
    exact .inr ⟨"Invalid JSON response: " ++ e, by simp [parse_json_response, h]⟩

/-- C3: for the comprehensive format (any `evaluation_type` other than `json`
and `simple`) on a successful response, the grade is the specification's
ordered-pattern extraction (`TOTAL:`/`Total:`/`Score:`/`Grade:` `N/100` first
match, then the first `%`-suffixed number, else absent) and the percentage is
that grade or `0`. -/
theorem C3_text_grade (sid prob code fmt : String) (msol : Option String)
    (resp : GradingResponse) (hs : resp.success = true)
    (h1 : fmt ≠ "json") (h2 : fmt ≠ "simple") :
    grade_code sid prob code fmt msol resp = .ok
      { student_id := sid, problem := prob, code := code, success := true,
        grade := (textGradeSpec resp.raw_response.data).map (fun q => JValue.num q),
        percentage := some (.num ((textGradeSpec resp.raw_response.data).getD 0)),
        feedback := some (.obj [("raw_text", .str resp.raw_response)]),
        processing_time := resp.processing_time } := by
  simp only [grade_code, hs, parse_text_result, ← textGrade_eq_spec resp.raw_response.data]
  simp [h1, h2]

/-- Witness for C3: a response containing the line `Score: 87/100` grades to
`87.0` with percentage `87.0`. -/
theorem C3_text_grade_witness :
    grade_code "s1" "p" "c" "comprehensive" none
      { success := true, raw_response := "Score: 87/100", processing_time := 1 } = .ok
      { student_id := "s1", problem := "p", code := "c", success := true,
        grade := some (.num 87), percentage := some (.num 87),
        feedback := some (.obj [("raw_text", .str "Score: 87/100")]),
        processing_time := 1 } :=
  (C3_text_grade "s1" "p" "c" "comprehensive" none _ rfl
    (by decide) (by decide)).trans (by rfl)

/-- C4: for the simple format, a successful response parsing to a dictionary
without an `error` key grades `100` when `is_correct` is `true` (hints
regardless), `50` when `is_correct` is `false` or absent and the hints list is
empty or absent, and `25` when `is_correct` is `false` and hints are present;
the percentage equals the grade and the hints become the `issues` field. -/
theorem C4_simple_grade (sid prob code : String) (msol : Option String)
    (resp : GradingResponse) (o : List (String × JValue)) (b : Bool)
    (hl : List JValue)
    (hsucc : resp.success = true)
    (hparse : parse_json_response resp.raw_response = .obj o)
    (herr : o.find? (fun kv => kv.1 == "error") = none)
    (hic : (o.find? (fun kv => kv.1 == "is_correct")).map (fun kv => kv.2)
             = some (.bool b)
         ∨ ((o.find? (fun kv => kv.1 == "is_correct")).map (fun kv => kv.2)
             = none ∧ b = false))
    (hh : (o.find? (fun kv => kv.1 == "hints")).map (fun kv => kv.2)
            = some (.arr hl)
        ∨ ((o.find? (fun kv => kv.1 == "hints")).map (fun kv => kv.2)
            = none ∧ hl = [])) :
    grade_code sid prob code "simple" msol resp = .ok
      { student_id := sid, problem := prob, code := code, success := true,
        grade := some (.num (if b then 100 else if hl.isEmpty then 50 else 25)),
        percentage := some (.num (if b then 100 else if hl.isEmpty then 50 else 25)),
        feedback := some (.obj o), issues := some (.arr hl),
        processing_time := resp.processing_time } := by
  rcases hic with hic | ⟨hic, rfl⟩ <;> rcases hh with hh | ⟨hh, rfl⟩ <;>
    simp [grade_code, hsucc, parse_simple_result, hparse, pyIn, herr, dictGet,
      hic, hh, pyTruthy] <;>
    cases hl.isEmpty <;> simp

/-- Witness for C4 at the three specification examples. -/
theorem C4_simple_grade_witness :
    (grade_code "s1" "p" "c" "simple" none
      { success := true,
        raw_response := "\x7b\"is_correct\": true, \"hints\": []\x7d",
        processing_time := 1 } = .ok
      { student_id := "s1", problem := "p", code := "c", success := true,
        grade := some (.num 100), percentage := some (.num 100),
        feedback := some (.obj [("is_correct", .bool true), ("hints", .arr [])]),
        issues := some (.arr []), processing_time := 1 }) ∧
    (grade_code "s1" "p" "c" "simple" none
      { success := true,
        raw_response := "\x7b\"is_correct\": false, \"hints\": []\x7d",
        processing_time := 1 } = .ok
      { student_id := "s1", problem := "p", code := "c", success := true,
        grade := some (.num 50), percentage := some (.num 50),
        feedback := some (.obj [("is_correct", .bool false), ("hints", .arr [])]),
        issues := some (.arr []), processing_time := 1 }) ∧
    (grade_code "s1" "p" "c" "simple" none
      { success := true,
        raw_response := "\x7b\"is_correct\": false, \"hints\": [\"x\"]\x7d",
        processing_time := 1 } = .ok
      { student_id := "s1", problem := "p", code := "c", success := true,
        grade := some (.num 25), percentage := some (.num 25),
        feedback := some (.obj [("is_correct", .bool false),
                                ("hints", .arr [.str "x"])]),
        issues := some (.arr [.str "x"]), processing_time := 1 }) :=
  ⟨(C4_simple_grade "s1" "p" "c" none
      { success := true,
        raw_response := "\x7b\"is_correct\": true, \"hints\": []\x7d",
        processing_time := 1 }
      [("is_correct", .bool true), ("hints", .arr [])] true [] rfl rfl rfl
      (Or.inl rfl) (Or.inl rfl)).trans (by rfl),
   (C4_simple_grade "s1" "p" "c" none
      { success := true,
        raw_response := "\x7b\"is_correct\": false, \"hints\": []\x7d",
        processing_time := 1 }
      [("is_correct", .bool false), ("hints", .arr [])] false [] rfl rfl rfl
      (Or.inl rfl) (Or.inl rfl)).trans (by rfl),
   (C4_simple_grade "s1" "p" "c" none
      { success := true,
        raw_response := "\x7b\"is_correct\": false, \"hints\": [\"x\"]\x7d",
        processing_time := 1 }
      [("is_correct", .bool false), ("hints", .arr [.str "x"])] false [.str "x"]
      rfl rfl rfl (Or.inl rfl) (Or.inl rfl)).trans (by rfl)⟩

/-- C10 counterexample: a successful json-format response parsing to
`\x7b"percentage": 55\x7d` (no `error` key, no `total_score` key) yields
`grade = 0` but `percentage = 55`, not the claimed `percentage = 0`. -/
theorem C10_counterexample :
    grade_code "s1" "p" "c" "json" none
      { success := true, raw_response := "\x7b\"percentage\": 55\x7d",
        processing_time := 1 } = .ok
      { student_id := "s1", problem := "p", code := "c", success := true,
        grade := some (.num 0), percentage := some (.num 55),
        feedback := some (.obj [("percentage", .num 55)]),
        issues := some (.arr []), recommendations := some (.arr []),
        strengths := some (.arr []), processing_time := 1 } ∧
    JValue.num 55 ≠ JValue.num 0 :=
  ⟨by rfl, by simp⟩

/-- C10 as amended: for the json format, when the parsed object has no
`error`, `total_score` or `percentage` key, the result has `success=true`
with `grade = 0` and `percentage = 0` — an absent score is indistinguishable
from a zero score. -/
theorem C10_absent_score (sid prob code : String) (msol : Option String)
    (resp : GradingResponse) (o : List (String × JValue))
    (hsucc : resp.success = true)
    (hparse : parse_json_response resp.raw_response = .obj o)
    (herr : o.find? (fun kv => kv.1 == "error") = none)
    (hts : o.find? (fun kv => kv.1 == "total_score") = none)
    (hpc : o.find? (fun kv => kv.1 == "percentage") = none) :
    grade_code sid prob code "json" msol resp = .ok
      { student_id := sid, problem := prob, code := code, success := true,
        grade := some (.num 0), percentage := some (.num 0),
        feedback := some (.obj o),
        issues := some (((o.find? (fun kv => kv.1 == "issues")).map
          (fun kv => kv.2)).getD (.arr [])),
        recommendations := some (((o.find? (fun kv => kv.1 == "recommendations")).map
          (fun kv => kv.2)).getD (.arr [])),
        strengths := some (((o.find? (fun kv => kv.1 == "strengths")).map
          (fun kv => kv.2)).getD (.arr [])),
        processing_time := resp.processing_time } := by
  simp [grade_code, hsucc, parse_json_result, hparse, pyIn, herr, dictGet,
    hts, hpc, jsonDefaultPct, pyTruthy]

/-- Witness for the amended C10 at the empty JSON object. -/
theorem C10_absent_score_witness :
    grade_code "s1" "p" "c" "json" none
      { success := true, raw_response := "\x7b\x7d", processing_time := 1 } = .ok
      { student_id := "s1", problem := "p", code := "c", success := true,
        grade := some (.num 0), percentage := some (.num 0),
        feedback := some (.obj []), issues := some (.arr []),
        recommendations := some (.arr []), strengths := some (.arr []),
        processing_time := 1 } :=
  (C10_absent_score "s1" "p" "c" none
    { success := true, raw_response := "\x7b\x7d", processing_time := 1 }
    [] rfl rfl rfl rfl rfl).trans (by rfl)

/-- Every outcome of `_parse_json_result`: a Python exception, the
JSON-parsing-error failure record, or a success record with `grade`,
`percentage`, `feedback` and the three list fields all populated. -/
theorem parse_json_result_shape (sid prob code : String) (resp : GradingResponse) :
    (∃ e, parse_json_result sid prob code resp = .error e) ∨
    (∃ m, parse_json_result sid prob code resp = .ok
      { student_id := sid, problem := prob, code := code, success := false,
        processing_time := resp.processing_time,
        error_message := some ("JSON parsing error: " ++ m) }) ∨
    (∃ g p i rec st, parse_json_result sid prob code resp = .ok
      { student_id := sid, problem := prob, code := code, success := true,
        grade := some g, percentage := some p,
        feedback := some (parse_json_response resp.raw_response),
        issues := some i, recommendations := some rec, strengths := some st,
        processing_time := resp.processing_time }) := by
  cases h1 : pyIn "error" (parse_json_response resp.raw_response) with
  | error e => exact .inl ⟨e, by simp [parse_json_result, h1]⟩
  | ok b =>
    cases b with
    | true =>
      cases h2 : pyGetItem (parse_json_response resp.raw_response) "error" with
      | error e => exact .inl ⟨e, by simp [parse_json_result, h1, h2]⟩
      | ok ev => exact .inr (.inl ⟨pyStr ev, by simp [parse_json_result, h1, h2]⟩)
    | false =>
      cases h2 : dictGet (parse_json_response resp.raw_response) "total_score" (.num 0) with
      | error e => exact .inl ⟨e, by simp [parse_json_result, h1, h2]⟩
      | ok grade =>
        cases h3 : jsonDefaultPct grade with
        | error e => exact .inl ⟨e, by simp [parse_json_result, h1, h2, h3]⟩
        | ok dflt =>
          cases h4 : dictGet (parse_json_response resp.raw_response) "percentage" dflt with
          | error e => exact .inl ⟨e, by simp [parse_json_result, h1, h2, h3, h4]⟩
          | ok pct =>
            cases h5 : dictGet (parse_json_response resp.raw_response) "issues" (.arr []) with
            | error e => exact .inl ⟨e, by simp [parse_json_result, h1, h2, h3, h4, h5]⟩
            | ok iss =>
              cases h6 : dictGet (parse_json_response resp.raw_response) "recommendations" (.arr []) with
              | error e => exact .inl ⟨e, by simp [parse_json_result, h1, h2, h3, h4, h5, h6]⟩
              | ok rec =>
                cases h7 : dictGet (parse_json_response resp.raw_response) "strengths" (.arr []) with
                | error e => exact .inl ⟨e, by simp [parse_json_result, h1, h2, h3, h4, h5, h6, h7]⟩
                | ok st =>
                  exact .inr (.inr ⟨grade, pct, iss, rec, st,
                    by simp [parse_json_result, h1, h2, h3, h4, h5, h6, h7]⟩)

/-- Every outcome of `_parse_simple_result`: a Python exception, the failure
record, or a success record whose grade and percentage coincide and whose
issues are the hints. -/
theorem parse_simple_result_shape (sid prob code : String) (resp : GradingResponse) :
    (∃ e, parse_simple_result sid prob code resp = .error e) ∨
    (∃ m, parse_simple_result sid prob code resp = .ok
      { student_id := sid, problem := prob, code := code, success := false,
        processing_time := resp.processing_time,
        error_message := some ("JSON parsing error: " ++ m) }) ∨
    (∃ g hints, parse_simple_result sid prob code resp = .ok
      { student_id := sid, problem := prob, code := code, success := true,
        grade := some (.num g), percentage := some (.num g),
        feedback := some (parse_json_response resp.raw_response),
        issues := some hints,
        processing_time := resp.processing_time }) := by
  cases h1 : pyIn "error" (parse_json_response resp.raw_response) with
  | error e => exact .inl ⟨e, by simp [parse_simple_result, h1]⟩
  | ok b =>
    cases b with
    | true =>
      cases h2 : pyGetItem (parse_json_response resp.raw_response) "error" with
      | error e => exact .inl ⟨e, by simp [parse_simple_result, h1, h2]⟩
      | ok ev => exact .inr (.inl ⟨pyStr ev, by simp [parse_simple_result, h1, h2]⟩)
    | false =>
      cases h2 : dictGet (parse_json_response resp.raw_response) "is_correct" (.bool false) with
      | error e => exact .inl ⟨e, by simp [parse_simple_result, h1, h2]⟩
      | ok ic =>
        cases h3 : dictGet (parse_json_response resp.raw_response) "hints" (.arr []) with
        | error e => exact .inl ⟨e, by simp [parse_simple_result, h1, h2, h3]⟩
        | ok hints =>
          exact .inr (.inr ⟨(if pyTruthy ic then 100 else if pyTruthy hints = false then 50 else 25 : ℚ),
            hints, by simp [parse_simple_result, h1, h2, h3]⟩)

/-- A successfully evaluated eager percentage default is always numeric. -/
theorem jsonDefaultPct_num (v w : JValue) (h : jsonDefaultPct v = Except.ok w) :
    ∃ q, w = JValue.num q := by
  unfold jsonDefaultPct at h
  split at h
  · cases v <;> simp at h <;> exact ⟨_, h.symm⟩
  · simp at h
    exact ⟨0, h.symm⟩

/-- C1 counterexample: a successful comprehensive-format response in which no
score pattern matches produces `success=true` with `grade` absent (`None`) —
the claimed "grade present whenever success is true" fails. -/
theorem C1_counterexample :
    grade_code "s1" "p" "c" "comprehensive" none
      { success := true, raw_response := "No score patterns here.",
        processing_time := 1 } = .ok
      { student_id := "s1", problem := "p", code := "c", success := true,
        grade := none, percentage := some (.num 0),
        feedback := some (.obj [("raw_text", .str "No score patterns here.")]),
        processing_time := 1 } := by
  rfl

/-- C1 as amended: for client responses (which always attach an error message
to a failure), a failed result has `grade`/`percentage`/`feedback` absent and
`error_message` populated.  A successful result has, at the Python level
(where a stored JSON null is the same object `None` as an unset field): for
the simple format `grade` and `percentage` both non-`None`; for the
comprehensive and any other non-json, non-simple format `percentage`
non-`None`, with `grade` `None` exactly on the score-extraction miss, where
the percentage is `0`; for the json format `grade` (resp. `percentage`)
`None` precisely when the parsed response stores an explicit JSON null under
`total_score` (resp. `percentage`) — the stored null is passed through. -/
theorem C1_amended (sid prob code fmt : String) (msol : Option String)
    (resp : GradingResponse) (r : GradingResult)
    (hclient : resp.success = false → resp.error_message.isSome)
    (hok : grade_code sid prob code fmt msol resp = .ok r) :
    (r.success = false →
      r.grade = none ∧ r.percentage = none ∧ r.feedback = none ∧
      r.error_message.isSome) ∧
    (r.success = true →
      (fmt = "simple" →
        isPyNone r.grade = false ∧ isPyNone r.percentage = false) ∧
      (fmt ≠ "json" → fmt ≠ "simple" →
        isPyNone r.percentage = false ∧
        (isPyNone r.grade = true →
          r.grade = none ∧ r.percentage = some (.num 0))) ∧
      (fmt = "json" →
        (isPyNone r.grade = true ↔
          jKey (parse_json_response resp.raw_response) "total_score"
            = some JValue.null) ∧
        (isPyNone r.percentage = true ↔
          jKey (parse_json_response resp.raw_response) "percentage"
            = some JValue.null))) := by
  cases hrs : resp.success with
  | false =>
    simp [grade_code, hrs] at hok
    subst hok
    exact ⟨fun _ => ⟨rfl, rfl, rfl, hclient hrs⟩, fun h => by simp at h⟩
  | true =>
    by_cases hf1 : fmt = "json"
    · subst hf1
      simp only [grade_code, hrs] at hok
      simp at hok
      cases hv : parse_json_response resp.raw_response with
      | obj kvs =>
        cases he : kvs.find? (fun kv => kv.1 == "error") with
        | some kv =>
          rw [show parse_json_result sid prob code resp = .ok
              { student_id := sid, problem := prob, code := code,
                success := false,
                processing_time := resp.processing_time,
                error_message := some ("JSON parsing error: " ++ pyStr kv.2) }
            from by simp [parse_json_result, hv, pyIn, pyGetItem, he]] at hok
          simp only [Except.ok.injEq] at hok
          subst hok
          exact ⟨fun _ => ⟨rfl, rfl, rfl, by simp⟩, fun h => by simp at h⟩
        | none =>
          cases hd : jsonDefaultPct
              (((kvs.find? (fun kv => kv.1 == "total_score")).map
                (fun kv => kv.2)).getD (.num 0)) with
          | error e =>
            rw [show parse_json_result sid prob code resp = .error e from by
              simp [parse_json_result, hv, pyIn, he, dictGet, hd]] at hok
            simp at hok
          | ok dflt =>
            obtain ⟨qd, hqd⟩ := jsonDefaultPct_num _ _ hd
            subst hqd
            rw [show parse_json_result sid prob code resp = .ok
                { student_id := sid, problem := prob, code := code,
                  success := true,
                  grade := some (((kvs.find? (fun kv => kv.1 == "total_score")).map
                    (fun kv => kv.2)).getD (.num 0)),
                  percentage := some (((kvs.find? (fun kv => kv.1 == "percentage")).map
                    (fun kv => kv.2)).getD (.num qd)),
                  feedback := some (.obj kvs),
                  issues := some (((kvs.find? (fun kv => kv.1 == "issues")).map
                    (fun kv => kv.2)).getD (.arr [])),
                  recommendations := some (((kvs.find? (fun kv => kv.1 == "recommendations")).map
                    (fun kv => kv.2)).getD (.arr [])),
                  strengths := some (((kvs.find? (fun kv => kv.1 == "strengths")).map
                    (fun kv => kv.2)).getD (.arr [])),
                  processing_time := resp.processing_time }
              from by simp [parse_json_result, hv, pyIn, he, dictGet, hd]] at hok
            simp only [Except.ok.injEq] at hok
            subst hok
            refine ⟨fun h => by simp at h,
                    fun _ => ⟨fun h => by simp at h,
                              fun h1 _ => absurd rfl h1,
                              fun _ => ⟨?_, ?_⟩⟩⟩
            · simp only [jKey]
              cases hts : (kvs.find? (fun kv => kv.1 == "total_score")).map
                  (fun kv => kv.2) with
              | none => simp [hts, isPyNone]
              | some w => cases w <;> simp [hts, isPyNone]
            · simp only [jKey]
              cases hpc : (kvs.find? (fun kv => kv.1 == "percentage")).map
                  (fun kv => kv.2) with
              | none => simp [hpc, isPyNone]
              | some w => cases w <;> simp [hpc, isPyNone]
      | null => simp [parse_json_result, hv, pyIn] at hok
      | bool b => simp [parse_json_result, hv, pyIn] at hok
      | num q => simp [parse_json_result, hv, pyIn] at hok
      | str st =>
        cases ha : pyIn "error" (JValue.str st) with
        | error e => simp [parse_json_result, hv, ha] at hok
        | ok b =>
          cases b <;> simp [parse_json_result, hv, ha, pyGetItem, dictGet] at hok
      | arr xs =>
        cases ha : pyIn "error" (JValue.arr xs) with
        | error e => simp [parse_json_result, hv, ha] at hok
        | ok b =>
          cases b <;> simp [parse_json_result, hv, ha, pyGetItem, dictGet] at hok
    · by_cases hf2 : fmt = "simple"
      · subst hf2
        simp only [grade_code, hrs] at hok
        simp at hok
        rcases parse_simple_result_shape sid prob code resp with
          ⟨e, hsh⟩ | ⟨m, hsh⟩ | ⟨g, hints, hsh⟩ <;> rw [hsh] at hok <;>
          simp at hok <;> subst hok
        · exact ⟨fun _ => ⟨rfl, rfl, rfl, by simp⟩, fun h => by simp at h⟩
        · exact ⟨fun h => by simp at h,
            fun _ => ⟨fun _ => ⟨by simp [isPyNone], by simp [isPyNone]⟩,
                      fun _ h2 => absurd rfl h2,
                      fun h => by simp at h⟩⟩
      · simp [grade_code, hrs, hf1, hf2, parse_text_result] at hok
        subst hok
        refine ⟨fun h => by simp at h,
                fun _ => ⟨fun h => absurd h hf2,
                          fun _ _ => ⟨?_, ?_⟩,
                          fun h => absurd h hf1⟩⟩
        · simp [isPyNone]
        · intro h0
          simp only []
          cases hm : firstScore score_patterns resp.raw_response.data with
          | some n => simp [hm, isPyNone] at h0
          | none =>
            cases hp : searchFrom percentAt resp.raw_response.data with
            | some q => simp [hm, hp, isPyNone] at h0
            | none => simp [hm, hp]

/-- Witness for the amended C1: a failed client response with an attached
message yields a failure record with all score fields absent and an error
message present. -/
theorem C1_amended_witness :
    ({ student_id := "s1", problem := "p", code := "c", success := false,
       processing_time := 2, error_message := some "boom" } : GradingResult).grade
        = none ∧
    ({ student_id := "s1", problem := "p", code := "c", success := false,
       processing_time := 2, error_message := some "boom" } : GradingResult
      ).error_message.isSome :=
  ⟨((C1_amended "s1" "p" "c" "json" none
      { success := false, processing_time := 2, error_message := some "boom" }
      _ (fun _ => rfl) rfl).1 rfl).1,
   ((C1_amended "s1" "p" "c" "json" none
      { success := false, processing_time := 2, error_message := some "boom" }
      _ (fun _ => rfl) rfl).1 rfl).2.2.2⟩

/-- C8 counterexample: in the engine's own `GradingResult`, the list-valued
fields are `None` (absent) on the comprehensive path — the claimed
"never absent in the engine's GradingResult" fails. -/
theorem C8_counterexample :
    grade_code "s1" "p" "c" "comprehensive" none
      { success := true, raw_response := "All good. TOTAL: 90/100",
        processing_time := 1 } = .ok
      { student_id := "s1", problem := "p", code := "c", success := true,
        grade := some (.num 90), percentage := some (.num 90),
        feedback := some (.obj [("raw_text", .str "All good. TOTAL: 90/100")]),
        issues := none, recommendations := none, strengths := none,
        processing_time := 1 } := by
  rfl

/-- C8 as amended: the empty-sequence defaulting holds at the facade —
`_format_result` turns absent (or empty) engine-level list fields into empty
sequences — and end-to-end for the json format, keys absent from the parsed
response reach the engine as `some []` and the facade as empty sequences; in
the engine's own `GradingResult` the fields may be `None`. -/
theorem C8_amended :
    (∀ r : GradingResult,
      (r.issues = none ∨ r.issues = some (.arr []) →
        (format_result r).issues = .arr []) ∧
      (r.recommendations = none ∨ r.recommendations = some (.arr []) →
        (format_result r).recommendations = .arr []) ∧
      (r.strengths = none ∨ r.strengths = some (.arr []) →
        (format_result r).strengths = .arr [])) ∧
    (∀ (sid prob code : String) (msol : Option String) (resp : GradingResponse)
        (o : List (String × JValue)) (r : GradingResult),
      resp.success = true →
      parse_json_response resp.raw_response = .obj o →
      o.find? (fun kv => kv.1 == "error") = none →
      o.find? (fun kv => kv.1 == "issues") = none →
      o.find? (fun kv => kv.1 == "recommendations") = none →
      o.find? (fun kv => kv.1 == "strengths") = none →
      grade_code sid prob code "json" msol resp = .ok r →
      r.issues = some (.arr []) ∧ r.recommendations = some (.arr []) ∧
      r.strengths = some (.arr []) ∧
      (format_result r).issues = .arr [] ∧
      (format_result r).recommendations = .arr [] ∧
      (format_result r).strengths = .arr []) := by
  constructor
  · intro r
    refine ⟨?_, ?_, ?_⟩ <;> rintro (h | h) <;>
      simp [format_result, pyOrList, h, pyTruthy]
  · intro sid prob code msol resp o r hsucc hparse herr hi hr hst hok
    have hmain : parse_json_result sid prob code resp = .ok r := by
      simpa [grade_code, hsucc] using hok
    cases hd : jsonDefaultPct (((o.find? (fun kv => kv.1 == "total_score")).map
        (fun kv => kv.2)).getD (.num 0)) with
    | error e =>
      rw [show parse_json_result sid prob code resp = .error e from by
        simp [parse_json_result, hparse, pyIn, herr, dictGet, hd]] at hmain
      simp at hmain
    | ok dflt =>
      rw [show parse_json_result sid prob code resp = .ok
          { student_id := sid, problem := prob, code := code, success := true,
            grade := some (((o.find? (fun kv => kv.1 == "total_score")).map
              (fun kv => kv.2)).getD (.num 0)),
            percentage := some (((o.find? (fun kv => kv.1 == "percentage")).map
              (fun kv => kv.2)).getD dflt),
            feedback := some (.obj o),
            issues := some (.arr []), recommendations := some (.arr []),
            strengths := some (.arr []),
            processing_time := resp.processing_time } from by
        simp [parse_json_result, hparse, pyIn, herr, dictGet, hd, hi, hr, hst]] at hmain
      simp only [Except.ok.injEq] at hmain
      subst hmain
      simp [format_result, pyOrList, pyTruthy]

/-- Witness for the amended C8: the facade defaults an absent `issues` to the
empty sequence, and an empty JSON object reaches the facade with all three
list fields empty. -/
theorem C8_amended_witness :
    (format_result
      ({ student_id := "s1", problem := "p", code := "c",
         success := true, processing_time := 1 } : GradingResult)).issues
      = .arr [] ∧
    (format_result
      ({ student_id := "s1", problem := "p", code := "c",
         success := true, grade := some (.num 0), percentage := some (.num 0),
         feedback := some (.obj []), issues := some (.arr []),
         recommendations := some (.arr []), strengths := some (.arr []),
         processing_time := 1 } : GradingResult)).issues = .arr [] :=
  ⟨(C8_amended.1 _).1 (Or.inl rfl),
   (C8_amended.2 "s1" "p" "c" none
      { success := true, raw_response := "\x7b\x7d", processing_time := 1 }
      [] _ rfl rfl rfl rfl rfl rfl rfl).2.2.2.1⟩

/-- `MultiModelClient.__init__` either configures a provider or raises the
unsupported-provider `ValueError` — no other outcome. -/
theorem multiModelClient_init_shape (k m p : String) :
    (multiModelClient_init k m p).isOk = true ∨
    (∃ msg, multiModelClient_init k m p = .error (.valueError msg)) := by
  by_cases h1 : pyLower p = "openai"
  · exact .inl (by simp [multiModelClient_init, h1, Except.isOk, Except.toBool])
  · by_cases h2 : pyLower p = "anthropic"
    · exact .inl (by simp [multiModelClient_init, h1, h2, Except.isOk, Except.toBool])
    · by_cases h3 : pyLower p = "gemini"
      · exact .inl (by simp [multiModelClient_init, h1, h2, h3, Except.isOk, Except.toBool])
      · by_cases h4 : pyLower p = "groq"
        · exact .inl (by simp [multiModelClient_init, h1, h2, h3, h4, Except.isOk, Except.toBool])
        · exact .inr ⟨"Unsupported provider: " ++ p,
            by simp [multiModelClient_init, h1, h2, h3, h4]⟩

/-- The eager percentage default only raises on a truthy value that is
neither numeric nor boolean. -/
theorem jsonDefaultPct_isOk (v : JValue)
    (h : (∃ q, v = .num q) ∨ (∃ b, v = .bool b) ∨ pyTruthy v = false) :
    ∃ w, jsonDefaultPct v = .ok w := by
  rcases h with ⟨q, rfl⟩ | ⟨b, rfl⟩ | h
  · unfold jsonDefaultPct
    split <;> exact ⟨_, rfl⟩
  · unfold jsonDefaultPct
    split <;> exact ⟨_, rfl⟩
  · simp [jsonDefaultPct, h]

/-- On a well-shaped parsed response, `_parse_json_result` never raises. -/
theorem parse_json_result_isOk (sid prob code : String) (resp : GradingResponse)
    (h : jsonShapeOk (parse_json_response resp.raw_response) = true) :
    (parse_json_result sid prob code resp).isOk = true := by
  cases hv : parse_json_response resp.raw_response with
  | obj kvs =>
    cases he : kvs.find? (fun kv => kv.1 == "error") with
    | some kv => simp [parse_json_result, hv, pyIn, pyGetItem, he, Except.isOk, Except.toBool]
    | none =>
      rw [hv] at h
      simp only [jsonShapeOk, he] at h
      cases hts : (kvs.find? (fun kv => kv.1 == "total_score")).map (fun kv => kv.2) with
      | none =>
        simp [parse_json_result, hv, pyIn, he, dictGet, hts, jsonDefaultPct,
          pyTruthy, Except.isOk, Except.toBool]
      | some w =>
        rw [hts] at h
        have hok : ∃ u, jsonDefaultPct w = .ok u := by
          apply jsonDefaultPct_isOk
          cases w with
          | num q => exact .inl ⟨q, rfl⟩
          | bool b => exact .inr (.inl ⟨b, rfl⟩)
          | null => exact .inr (.inr rfl)
          | str s => exact .inr (.inr (by simpa using h))
          | arr xs => exact .inr (.inr (by simpa using h))
          | obj kvs2 => exact .inr (.inr (by simpa using h))
        obtain ⟨u, hu⟩ := hok
        simp [parse_json_result, hv, pyIn, he, dictGet, hts, hu, Except.isOk, Except.toBool]
  | null => rw [hv] at h; simp [jsonShapeOk] at h
  | bool b => rw [hv] at h; simp [jsonShapeOk] at h
  | num q => rw [hv] at h; simp [jsonShapeOk] at h
  | str s => rw [hv] at h; simp [jsonShapeOk] at h
  | arr xs => rw [hv] at h; simp [jsonShapeOk] at h

/-- On a dictionary-shaped parsed response, `_parse_simple_result` never
raises. -/
theorem parse_simple_result_isOk (sid prob code : String) (resp : GradingResponse)
    (h : simpleShapeOk (parse_json_response resp.raw_response) = true) :
    (parse_simple_result sid prob code resp).isOk = true := by
  cases hv : parse_json_response resp.raw_response with
  | obj kvs =>
    cases he : kvs.find? (fun kv => kv.1 == "error") with
    | some kv => simp [parse_simple_result, hv, pyIn, pyGetItem, he, Except.isOk, Except.toBool]
    | none => simp [parse_simple_result, hv, pyIn, he, dictGet, Except.isOk, Except.toBool]
  | null => rw [hv] at h; simp [simpleShapeOk] at h
  | bool b => rw [hv] at h; simp [simpleShapeOk] at h
  | num q => rw [hv] at h; simp [simpleShapeOk] at h
  | str s => rw [hv] at h; simp [simpleShapeOk] at h
  | arr xs => rw [hv] at h; simp [simpleShapeOk] at h

/-- Under the sufficient shape condition, `grade_code` returns a result
rather than raising. -/
theorem grade_code_safe_isOk (sid prob code fmt : String) (msol : Option String)
    (resp : GradingResponse) (h : gradeCodeSafe fmt resp = true) :
    (grade_code sid prob code fmt msol resp).isOk = true := by
  cases hrs : resp.success with
  | false => simp [grade_code, hrs, Except.isOk, Except.toBool]
  | true =>
    simp only [gradeCodeSafe, hrs, Bool.not_true, Bool.false_or] at h
    by_cases hf1 : fmt = "json"
    · rw [if_pos hf1] at h
      simpa [grade_code, hrs, hf1] using parse_json_result_isOk sid prob code resp h
    · by_cases hf2 : fmt = "simple"
      · rw [if_neg hf1, if_pos hf2] at h
        simpa [grade_code, hrs, hf1, hf2] using
          parse_simple_result_isOk sid prob code resp h
      · simp [grade_code, hrs, hf1, hf2, parse_text_result, Except.isOk, Except.toBool]

/-- C9 counterexample: facade construction with an unsupported provider name
raises `ValueError` — a fault other than the connectivity failure the claim
allows. -/
theorem C9_counterexample :
    codeGrader_init "key" "gpt-3.5-turbo" "foo" (.exception "network down" 0) =
      .error (.valueError "Unsupported provider: foo") := by
  rfl

/-- C9 as amended: facade construction either succeeds, raises the
unsupported-provider `ValueError`, or raises the connectivity
`ConnectionError`; after construction, calls whose parsed responses are
well-shaped (JSON object with a numeric, boolean or falsy `total_score` for
the json format; any JSON object for the simple format; anything for the
text format) return the uniform result and raise nothing; batch grading
raises nothing when every submission has `problem` and `code` keys and every
response is well-shaped. -/
theorem C9_amended :
    (∀ (api_key model provider : String) (t : HttpOutcome),
      initFaultOk (codeGrader_init api_key model provider t)) ∧
    (∀ (sid prob code fmt : String) (msol : Option String)
        (resp : GradingResponse),
      gradeCodeSafe fmt resp = true →
      (grade_code sid prob code fmt msol resp).isOk = true) ∧
    (∀ (items : List (Submission × GradingResponse)) (fmt : String),
      (∀ it ∈ items, (subGet it.1 "problem").isSome = true ∧
        (subGet it.1 "code").isSome = true ∧ gradeCodeSafe fmt it.2 = true) →
      (grade_batch items fmt).isOk = true) := by
  refine ⟨?_, ?_, ?_⟩
  · intro k m p t
    rcases multiModelClient_init_shape k m p with hok | ⟨msg, hcfg⟩
    · cases hcfg : multiModelClient_init k m p with
      | error e => rw [hcfg] at hok; simp [Except.isOk, Except.toBool] at hok
      | ok cfg =>
        simp only [codeGrader_init, hcfg]
        split <;> simp [initFaultOk]
    · simp [codeGrader_init, hcfg, initFaultOk]
  · intro sid prob code fmt msol resp h
    exact grade_code_safe_isOk sid prob code fmt msol resp h
  · intro items fmt
    induction items with
    | nil => intro _; simp [grade_batch, Except.isOk, Except.toBool]
    | cons it rest ih =>
      intro h
      obtain ⟨sub, resp⟩ := it
      obtain ⟨hp, hc, hsafe⟩ := h (sub, resp) (by simp)
      have htail := fun x hx => h x (List.mem_cons_of_mem _ hx)
      cases hgp : subGet sub "problem" with
      | none => rw [hgp] at hp; simp at hp
      | some prob =>
        cases hgc : subGet sub "code" with
        | none => rw [hgc] at hc; simp at hc
        | some code =>
          have hone := grade_code_safe_isOk ((subGet sub "student_id").getD "unknown")
            prob code fmt (subGet sub "model_solution") resp hsafe
          obtain ⟨r, hr⟩ : ∃ r, grade_code ((subGet sub "student_id").getD "unknown")
              prob code fmt (subGet sub "model_solution") resp = .ok r := by
            cases hg : grade_code ((subGet sub "student_id").getD "unknown")
                prob code fmt (subGet sub "model_solution") resp with
            | ok r => exact ⟨r, rfl⟩
            | error e => rw [hg] at hone; simp [Except.isOk, Except.toBool] at hone
          have hrest := ih htail
          obtain ⟨rs, hrs2⟩ : ∃ rs, grade_batch rest fmt = .ok rs := by
            cases hg : grade_batch rest fmt with
            | ok rs => exact ⟨rs, rfl⟩
            | error e => rw [hg] at hrest; simp [Except.isOk, Except.toBool] at hrest
          simp [grade_batch, hgp, hgc, hr, hrs2, Except.isOk, Except.toBool]

/-- Witness for the amended C9: construction with a supported provider stays
within the allowed faults; a well-shaped json call and a one-item batch both
return without raising. -/
theorem C9_amended_witness :
    initFaultOk (codeGrader_init "k" "gpt-3.5-turbo" "openai"
      (.exception "down" 0)) ∧
    (grade_code "s1" "p" "c" "json" none
      { success := true, raw_response := "\x7b\x7d",
        processing_time := 1 }).isOk = true ∧
    (grade_batch [([("problem", "p"), ("code", "c")],
      { success := true, raw_response := "\x7b\x7d",
        processing_time := 1 })] "json").isOk = true :=
  ⟨C9_amended.1 "k" "gpt-3.5-turbo" "openai" (.exception "down" 0),
   C9_amended.2.1 "s1" "p" "c" "json" none
     { success := true, raw_response := "\x7b\x7d", processing_time := 1 } rfl,
   C9_amended.2.2 [([("problem", "p"), ("code", "c")],
     { success := true, raw_response := "\x7b\x7d", processing_time := 1 })]
     "json" (fun it hit => by
       simp only [List.mem_singleton] at hit
       subst hit
       exact ⟨rfl, rfl, rfl⟩)⟩

/-! ### String lemmas for the fence round-trip -/

/-- `dropWs` is idempotent. -/
theorem dropWs_idem (l : List Char) : dropWs (dropWs l) = dropWs l := by
  induction l with
  | nil => rfl
  | cons c t ih =>
    by_cases h : wsChar c = true
    · have hc : dropWs (c :: t) = dropWs t := by
        simp only [dropWs, List.dropWhile_cons, if_pos h]
      rw [hc]
      exact ih
    · have hc : dropWs (c :: t) = c :: t := by
        simp only [dropWs, List.dropWhile_cons, if_neg h]
      rw [hc, hc]

/-- The head surviving `dropWs` is not whitespace. -/
theorem dropWs_head (l : List Char) (c : Char) (t : List Char)
    (h : dropWs l = c :: t) : wsChar c = false := by
  induction l with
  | nil => simp [dropWs] at h
  | cons a r ih =>
    by_cases ha : wsChar a = true
    · rw [dropWs, List.dropWhile_cons, if_pos ha] at h
      exact ih h
    · rw [dropWs, List.dropWhile_cons, if_neg ha] at h
      injection h with h1 _
      subst h1
      simpa using ha

/-- `dropWhile_append` specialised to `dropWs`. -/
theorem dropWs_append (xs ys : List Char) :
    dropWs (xs ++ ys) =
      if (dropWs xs).isEmpty then dropWs ys else dropWs xs ++ ys :=
  List.dropWhile_append

/-- A non-whitespace head stops `dropWs`. -/
theorem dropWs_cons_nws (a : Char) (t : List Char) (h : wsChar a = false) :
    dropWs (a :: t) = a :: t := by
  simp [dropWs, List.dropWhile_cons, h]

/-- `str.strip` is idempotent. -/
theorem stripAll_idem (l : List Char) : stripAll (stripAll l) = stripAll l := by
  unfold stripAll
  cases hA : dropWs l.reverse with
  | nil => simp [dropWs]
  | cons a A' =>
    have ha : wsChar a = false := dropWs_head _ _ _ hA
    rw [List.reverse_cons, dropWs_append]
    by_cases hE : (dropWs A'.reverse).isEmpty = true
    · rw [if_pos hE, dropWs_cons_nws a [] ha]
      simp [dropWs, List.dropWhile_cons, ha]
    · rw [if_neg hE]
      rw [List.reverse_append, List.reverse_singleton, List.singleton_append,
        dropWs_cons_nws a _ ha, List.reverse_cons, List.reverse_reverse,
        dropWs_append, dropWs_idem, if_neg hE]

/-- Stripping is unaffected by one padding newline on each side (the slice
between the fences is the payload surrounded by the wrapper's newlines). -/
theorem stripAll_pad (l : List Char) :
    stripAll ('\n' :: (l ++ ['\n'])) = stripAll l := by
  unfold stripAll
  have h1 : ('\n' :: (l ++ ['\n'])).reverse = '\n' :: (l.reverse ++ ['\n']) := by
    simp
  rw [h1]
  have h2 : dropWs ('\n' :: (l.reverse ++ ['\n'])) = dropWs (l.reverse ++ ['\n']) := by
    simp [dropWs, List.dropWhile_cons, wsChar]
  rw [h2, dropWs_append]
  by_cases hE : (dropWs l.reverse).isEmpty = true
  · rw [if_pos hE]
    have : dropWs l.reverse = [] := by
      cases h : dropWs l.reverse
      · rfl
      · rw [h] at hE; simp at hE
    rw [this]
    simp [dropWs, List.dropWhile_cons, wsChar]
  · rw [if_neg hE]
    rw [List.reverse_append, List.reverse_singleton, List.singleton_append]
    simp [dropWs, List.dropWhile_cons, wsChar]

/-- No JSON value starts with the letter `j` (relevant to the `json` tag). -/
theorem jsonVal_j_none : ∀ (fuel : Nat) (rest : List Char),
    jsonVal fuel ('j' :: rest) = none
  | 0, _ => rfl
  | _ + 1, _ => rfl

/-- `json.loads` is insensitive to pre-stripping its input. -/
theorem loads_strip (s : String) : jsonLoads (pyStrip s) = jsonLoads s := by
  unfold jsonLoads
  have h : (pyStrip s).data = stripAll s.data := rfl
  rw [h, stripAll_idem]

/-- A successfully parsed text cannot begin, once stripped, with the `json`
language tag, so the tag-stripping step leaves it unchanged. -/
theorem no_json_tag (s : String) (v : JValue) (hparse : jsonLoads s = .ok v) :
    leadsWith "json\n".data (pyStrip s).data = false := by
  have hdata : (pyStrip s).data = stripAll s.data := rfl
  rw [hdata]
  cases hst : stripAll s.data with
  | nil => rfl
  | cons c t =>
    by_cases hc : c = 'j'
    · exfalso
      subst hc
      unfold jsonLoads at hparse
      rw [hst] at hparse
      simp [jsonVal_j_none] at hparse
    · have hjd : "json\n".data = 'j' :: 's' :: 'o' :: 'n' :: '\n' :: [] := rfl
      rw [hjd]
      simp only [leadsWith, litMatch]
      rw [if_neg (fun h => hc h.symm)]
      rfl

/-- One unfolding step of the substring test. -/
theorem hasSub_cons (n : List Char) (c : Char) (cs : List Char) :
    hasSub n (c :: cs) = (leadsWith n (c :: cs) || hasSub n cs) := by
  have hstep : findIdx n (c :: cs) =
      if leadsWith n (c :: cs) = true then some 0
      else (findIdx n cs).map (· + 1) := rfl
  by_cases h : leadsWith n (c :: cs) = true
  · simp [hasSub, hstep, h]
  · cases hx : findIdx n cs <;> simp [hasSub, hstep, h, hx]

/-- A match of a longer literal is a match of its first part. -/
theorem leadsWith_append (p q l : List Char) (h : leadsWith (p ++ q) l = true) :
    leadsWith p l = true := by
  induction p generalizing l with
  | nil => simp [leadsWith, litMatch]
  | cons a p' ih =>
    cases l with
    | nil => simp [leadsWith, litMatch] at h
    | cons c cs =>
      simp only [List.cons_append, leadsWith, litMatch] at h ⊢
      by_cases hac : a = c
      · rw [if_pos hac] at h ⊢
        exact ih cs h
      · rw [if_neg hac] at h
        simp at h

/-- Text without an occurrence of `p` has no occurrence of any extension of
`p`. -/
theorem hasSub_of_append (p q l : List Char) (h : hasSub p l = false) :
    hasSub (p ++ q) l = false := by
  induction l with
  | nil =>
    cases p with
    | nil => simp [hasSub, findIdx, leadsWith, litMatch] at h
    | cons a p' => simp [hasSub, findIdx, leadsWith, litMatch]
  | cons c cs ih =>
    rw [hasSub_cons] at h ⊢
    simp only [Bool.or_eq_false_iff] at h
    refine ?_
    have h2 := ih h.2
    cases hlw : leadsWith (p ++ q) (c :: cs)
    · simp [h2]
    · exact absurd (leadsWith_append p q _ hlw) (by simp [h.1])

/-- A three-backtick match looks at exactly three characters, so it is
insensitive to what follows them. -/
theorem leadsWith_ggg3 (x y z : Char) (r1 r2 : List Char) :
    leadsWith ['`', '`', '`'] (x :: y :: z :: r1) =
    leadsWith ['`', '`', '`'] (x :: y :: z :: r2) := by
  simp only [leadsWith, litMatch]
  by_cases hx : ('`' : Char) = x
  case neg => rw [if_neg hx, if_neg hx]
  case pos =>
    rw [if_pos hx, if_pos hx]
    by_cases hy : ('`' : Char) = y
    case neg => rw [if_neg hy, if_neg hy]
    case pos =>
      rw [if_pos hy, if_pos hy]
      by_cases hz : ('`' : Char) = z
      case neg => rw [if_neg hz, if_neg hz]
      case pos => rw [if_pos hz, if_pos hz]; rfl

/-- In `payload ++ "\n```"` with no backtick fence inside the payload, the
first fence occurrence starts right after the payload's closing newline. -/
theorem findIdx_pad (sd : List Char)
    (h : hasSub ['`', '`', '`'] sd = false) :
    findIdx ['`', '`', '`'] (sd ++ ['\n', '`', '`', '`'])
      = some (sd.length + 1) := by
  induction sd with
  | nil => rfl
  | cons c t ih =>
    rw [hasSub_cons] at h
    simp only [Bool.or_eq_false_iff] at h
    have hlw2 : leadsWith ['`', '`', '`']
        (c :: (t ++ ['\n', '`', '`', '`'])) = false := by
      match t with
      | [] =>
        by_cases hc : ('`' : Char) = c
        · subst hc
          rfl
        · simp only [leadsWith, litMatch, List.nil_append]
          rw [if_neg hc]
          rfl
      | [b] =>
        by_cases hc : ('`' : Char) = c
        · subst hc
          by_cases hb : ('`' : Char) = b
          · subst hb
            rfl
          · simp only [leadsWith, litMatch, List.cons_append, List.nil_append,
              eq_self_iff_true, if_true]
            rw [if_neg hb]
            rfl
        · simp only [leadsWith, litMatch, List.cons_append]
          rw [if_neg hc]
          rfl
      | a :: b :: t' =>
        calc leadsWith ['`', '`', '`'] (c :: ((a :: b :: t') ++ ['\n', '`', '`', '`']))
            = leadsWith ['`', '`', '`'] (c :: a :: b :: (t' ++ ['\n', '`', '`', '`'])) := rfl
          _ = leadsWith ['`', '`', '`'] (c :: a :: b :: t') := leadsWith_ggg3 c a b _ _
          _ = false := h.1
    have hstep : findIdx ['`', '`', '`'] ((c :: t) ++ ['\n', '`', '`', '`']) =
        if leadsWith ['`', '`', '`'] (c :: (t ++ ['\n', '`', '`', '`'])) = true
        then some 0
        else (findIdx ['`', '`', '`'] (t ++ ['\n', '`', '`', '`'])).map (· + 1) := rfl
    rw [hstep, if_neg (by simp [hlw2]), ih h.2]
    simp

/-- Wrapping a fence-free payload in a ```json fence strips back to the
payload: the extractor computes the same string either way. -/
theorem extractJson_fence (s : String)
    (hnf : hasSub "```".data s.data = false) :
    extractJson (fenceJson s) = extractJson s := by
  have hnj : hasSub "```json".data s.data = false := by
    have h : "```json".data = "```".data ++ "json".data := rfl
    rw [h]
    exact hasSub_of_append _ _ _ hnf
  have hjin : hasSub "```json".data (fenceJson s).data = true := rfl
  have hfind7 : pyFind "```json".data (fenceJson s).data = 0 := rfl
  have hfd : (fenceJson s).data
      = '`' :: '`' :: '`' :: 'j' :: 's' :: 'o' :: 'n' :: '\n'
        :: (s.data ++ ['\n', '`', '`', '`']) := rfl
  have hlen : ((fenceJson s).data).length = s.data.length + 12 := by
    rw [hfd]
    simp only [List.length_cons, List.length_append, List.length_nil]
  have hdrop : (fenceJson s).data.drop 7
      = '\n' :: (s.data ++ ['\n', '`', '`', '`']) := rfl
  have hfindfrom : pyFindFrom "```".data (fenceJson s).data 7
      = (s.data.length : Int) + 9 := by
    simp only [pyFindFrom]
    rw [hlen]
    rw [if_neg (by norm_num : ¬((7 : Int) < 0))]
    rw [min_eq_left (by push_cast; omega : (7 : Int) ≤ ((s.data.length + 12 : Nat) : Int))]
    rw [show ((7 : Int)).toNat = 7 from rfl]
    rw [hdrop]
    have hstep : findIdx "```".data ('\n' :: (s.data ++ ['\n', '`', '`', '`'])) =
        (findIdx "```".data (s.data ++ ['\n', '`', '`', '`'])).map (· + 1) := rfl
    rw [hstep]
    rw [show "```".data = ['`', '`', '`'] from rfl]
    rw [findIdx_pad s.data (by
      rw [show ['`', '`', '`'] = "```".data from rfl]
      exact hnf)]
    simp only [Option.map_some']
    omega
  have hslice : pySlice (fenceJson s).data 7 ((s.data.length : Int) + 9)
      = '\n' :: (s.data ++ ['\n']) := by
    simp only [pySlice]
    rw [hlen]
    rw [if_neg (by norm_num : ¬((7 : Int) < 0))]
    rw [min_eq_left (by push_cast; omega : (7 : Int) ≤ ((s.data.length + 12 : Nat) : Int))]
    rw [if_neg (by omega : ¬(((s.data.length : Int) + 9) < 0))]
    rw [min_eq_left (by push_cast; omega :
      ((s.data.length : Int) + 9) ≤ ((s.data.length + 12 : Nat) : Int))]
    rw [show ((7 : Int)).toNat = 7 from rfl]
    rw [hdrop]
    rw [show (((s.data.length : Int) + 9) - 7).toNat = (s.data.length + 1) + 1 from by omega]
    rw [List.take_succ_cons]
    rw [List.take_append_eq_append_take]
    rw [List.take_of_length_le (by omega : s.data.length ≤ s.data.length + 1)]
    rw [show s.data.length + 1 - s.data.length = 1 from by omega]
    rfl
  have hps : pyStrip (⟨'\n' :: (s.data ++ ['\n'])⟩ : String) = pyStrip s := by
    show (⟨stripAll ('\n' :: (s.data ++ ['\n']))⟩ : String) = _
    rw [stripAll_pad]
    rfl
  have key : extractJson (fenceJson s) =
      (if leadsWith "json\n".data (pyStrip s).data = true
       then (⟨(pyStrip s).data.drop 5⟩ : String) else pyStrip s) := by
    simp only [extractJson, hjin, if_true]
    rw [hfind7]
    rw [show ((0 : Int) + 7) = 7 from by norm_num]
    rw [hfindfrom, hslice, hps]
  have key2 : extractJson s =
      (if leadsWith "json\n".data (pyStrip s).data = true
       then (⟨(pyStrip s).data.drop 5⟩ : String) else pyStrip s) := by
    simp only [extractJson, hnj, hnf]
    simp
  rw [key, key2]

/-- Without any backtick fence in the text, the extractor reduces to
strip-then-tag-removal. -/
theorem extractJson_no_fence (s : String)
    (hnf : hasSub "```".data s.data = false) :
    extractJson s =
      (if leadsWith "json\n".data (pyStrip s).data = true
       then (⟨(pyStrip s).data.drop 5⟩ : String) else pyStrip s) := by
  have hnj : hasSub "```json".data s.data = false := by
    have h : "```json".data = "```".data ++ "json".data := rfl
    rw [h]
    exact hasSub_of_append _ _ _ hnf
  simp only [extractJson, hnj, hnf]
  simp

/-- C7 counterexample: the JSON string literal `"```json"` parses as a JSON
value, yet extraction from its fenced form and from the bare text return two
different sentinel dictionaries (their preserved `raw_response` texts differ),
so the round-trip fails for payloads containing a backtick fence. -/
theorem C7_counterexample :
    jsonLoads "\"```json\"" = .ok (.str "```json") ∧
    rawRespStr (parse_json_response (fenceJson "\"```json\"")) =
      some (fenceJson "\"```json\"") ∧
    rawRespStr (parse_json_response "\"```json\"") = some "\"```json\"" ∧
    parse_json_response (fenceJson "\"```json\"") ≠
      parse_json_response "\"```json\"" := by
  refine ⟨rfl, rfl, rfl, fun h => ?_⟩
  have h2 := congrArg rawRespStr h
  rw [show rawRespStr (parse_json_response (fenceJson "\"```json\"")) =
        some (fenceJson "\"```json\"") from rfl,
      show rawRespStr (parse_json_response "\"```json\"") =
        some "\"```json\"" from rfl] at h2
  simp only [Option.some.injEq] at h2
  exact absurd h2 (by decide)

/-- C7 as amended: for every string that parses as a JSON value and contains
no backtick fence of its own, wrapping it in a ```json code fence does not
change what `parse_json_response` returns — and both directions return the
parsed value. -/
theorem C7_fence_roundtrip (s : String) (v : JValue)
    (hparse : jsonLoads s = .ok v)
    (hnf : hasSub "```".data s.data = false) :
    parse_json_response (fenceJson s) = parse_json_response s ∧
    parse_json_response s = v := by
  have htag := no_json_tag s v hparse
  have hext : extractJson s = pyStrip s := by
    rw [extractJson_no_fence s hnf, if_neg (by simp [htag])]
  have hload : jsonLoads (extractJson s) = .ok v := by
    rw [hext, loads_strip, hparse]
  have hfe : extractJson (fenceJson s) = extractJson s :=
    extractJson_fence s hnf
  constructor
  · simp [parse_json_response, hfe, hload]
  · simp [parse_json_response, hload]

/-- Witness for the amended C7 at the payload `\x7b"a": 1\x7d`. -/
theorem C7_fence_roundtrip_witness :
    parse_json_response (fenceJson "\x7b\"a\": 1\x7d")
      = parse_json_response "\x7b\"a\": 1\x7d" ∧
    parse_json_response "\x7b\"a\": 1\x7d" = .obj [("a", .num 1)] :=
  C7_fence_roundtrip "\x7b\"a\": 1\x7d" (.obj [("a", .num 1)]) rfl rfl
